import Mathlib

/-!
Shallow embedding of the `vagrant_sampling` repository:
`configs/datasets_config.py` (the dataset registry) and
`scripts/gen_qmugs.py` (the generation entry point `gen`).

Python dict literals for the dataset variants are embedded as a Lean
structure; dict keys that are present in some variants only
(`atomic_nb`, `charge2idx`, `distances`) become `Option` fields, with
`none` meaning the key is absent from that variant's dict literal.
External collaborators (the `Vagrant` model, `smiles_to_coords`,
`calc_entropy`, `calc_coherence`, the data loader) live outside `src/`
and are modelled from the spec as fields of an environment record, or
as definitions whose doc comments say so.
-/

namespace VagrantSampling

/-- A dataset-variant record, embedding the Python dict literals of
`configs/datasets_config.py`.  Keys absent from a given dict are `none`. -/
structure DatasetInfo where
  name : String
  atom_encoder : List (String × Nat)
  atomic_nb : Option (List Nat)
  atom_decoder : List String
  charge2idx : Option (List (Nat × Nat))
  max_n_nodes : Nat
  n_nodes : List (Nat × Nat)
  atom_types : List (Nat × Nat)
  distances : Option (List Nat)
  colors_dic : List String
  radius_dic : List ℚ
  with_h : Bool
  deriving Repr, DecidableEq

/-- `qm9_with_h` from `configs/datasets_config.py` (lines 1-29). -/
def qm9_with_h : DatasetInfo where
  name := "qm9"
  atom_encoder := [("H", 0), ("C", 1), ("N", 2), ("O", 3), ("F", 4)]
  atomic_nb := none
  atom_decoder := ["H", "C", "N", "O", "F"]
  charge2idx := some [(1, 0), (6, 1), (7, 2), (8, 3), (9, 4)]
  n_nodes := [(22, 3393), (17, 13025), (23, 4848), (21, 9970), (19, 13832), (20, 9482),
    (16, 10644), (13, 3060), (15, 7796), (25, 1506), (18, 13364), (12, 1689), (11, 807),
    (24, 539), (14, 5136), (26, 48), (7, 16), (10, 362), (8, 49), (9, 124), (27, 266),
    (4, 4), (29, 25), (6, 9), (5, 5), (3, 1)]
  max_n_nodes := 29
  atom_types := [(1, 635559), (2, 101476), (0, 923537), (3, 140202), (4, 2323)]
  distances := some [903054, 307308, 111994, 57474, 40384, 29170, 47152, 414344, 2202212,
    573726, 1490786, 2970978, 756818, 969276, 489242, 1265402, 4587994, 3187130, 2454868,
    2647422, 2098884, 2001974, 1625206, 1754172, 1620830, 1710042, 2133746, 1852492,
    1415318, 1421064, 1223156, 1322256, 1380656, 1239244, 1084358, 981076, 896904, 762008,
    659298, 604676, 523580, 437464, 413974, 352372, 291886, 271948, 231328, 188484, 160026,
    136322, 117850, 103546, 87192, 76562, 61840, 49666, 43100, 33876, 26686, 22402, 18358,
    15518, 13600, 12128, 9480, 7458, 5088, 4726, 3696, 3362, 3396, 2484, 1988, 1490, 984,
    734, 600, 456, 482, 378, 362, 168, 124, 94, 88, 52, 44, 40, 18, 16, 8, 6, 2, 0, 0, 0,
    0, 0, 0, 0]
  colors_dic := ["#FFFFFF99", "C7", "C0", "C3", "C1"]
  radius_dic := [46/100, 77/100, 77/100, 77/100, 77/100]
  with_h := true

/-- `qm9_without_h` from `configs/datasets_config.py` (lines 35-54). -/
def qm9_without_h : DatasetInfo where
  name := "qm9"
  atom_encoder := [("C", 0), ("N", 1), ("O", 2), ("F", 3)]
  atomic_nb := none
  atom_decoder := ["C", "N", "O", "F"]
  charge2idx := some [(6, 0), (7, 1), (8, 2), (9, 3)]
  max_n_nodes := 29
  n_nodes := [(9, 83366), (8, 13625), (7, 2404), (6, 475), (5, 91), (4, 25), (3, 7),
    (1, 2), (2, 5)]
  atom_types := [(0, 635559), (2, 140202), (1, 101476), (3, 2323)]
  distances := some [594, 1232, 3706, 4736, 5478, 9156, 8762, 13260, 45674, 174676,
    469292, 1182942, 126722, 25768, 28532, 51696, 232014, 299916, 686590, 677506, 379264,
    162794, 158732, 156404, 161742, 156486, 236176, 310918, 245558, 164688, 98830, 81786,
    89318, 91104, 92788, 83772, 81572, 85032, 56296, 32930, 22640, 24124, 24010, 22120,
    19730, 21968, 18176, 12576, 8224, 6772, 3906, 4416, 4306, 4110, 3700, 3592, 3134,
    2268, 774, 674, 514, 594, 622, 672, 642, 472, 300, 170, 104, 48, 54, 78, 78, 56, 48,
    36, 26, 4, 2, 4, 0, 0, 0, 0, 0, 0, 0, 0, 0, 0, 0, 0, 0, 0, 0, 0, 0, 0, 0, 0]
  colors_dic := ["C7", "C0", "C3", "C1"]
  radius_dic := [77/100, 77/100, 77/100, 77/100]
  with_h := false

/-- `geom_with_h` from `configs/datasets_config.py` (lines 60-93). -/
def geom_with_h : DatasetInfo where
  name := "geom"
  atom_encoder := [("H", 0), ("B", 1), ("C", 2), ("N", 3), ("O", 4), ("F", 5), ("Al", 6),
    ("Si", 7), ("P", 8), ("S", 9), ("Cl", 10), ("As", 11), ("Br", 12), ("I", 13),
    ("Hg", 14), ("Bi", 15)]
  atomic_nb := some [1, 5, 6, 7, 8, 9, 13, 14, 15, 16, 17, 33, 35, 53, 80, 83]
  atom_decoder := ["H", "B", "C", "N", "O", "F", "Al", "Si", "P", "S", "Cl", "As", "Br",
    "I", "Hg", "Bi"]
  charge2idx := none
  max_n_nodes := 181
  n_nodes := [(3, 1), (4, 3), (5, 9), (6, 2), (7, 8), (8, 23), (9, 23), (10, 50),
    (11, 109), (12, 168), (13, 280), (14, 402), (15, 583), (16, 597), (17, 949),
    (18, 1284), (19, 1862), (20, 2674), (21, 3599), (22, 6109), (23, 8693), (24, 13604),
    (25, 17419), (26, 25672), (27, 31647), (28, 43809), (29, 56697), (30, 70400),
    (31, 82655), (32, 104100), (33, 122776), (34, 140834), (35, 164888), (36, 185451),
    (37, 194541), (38, 218549), (39, 231232), (40, 243300), (41, 253349), (42, 268341),
    (43, 272081), (44, 276917), (45, 276839), (46, 274747), (47, 272126), (48, 262709),
    (49, 250157), (50, 244781), (51, 228898), (52, 215338), (53, 203728), (54, 191697),
    (55, 180518), (56, 163843), (57, 152055), (58, 136536), (59, 120393), (60, 107292),
    (61, 94635), (62, 83179), (63, 68384), (64, 61517), (65, 48867), (66, 37685),
    (67, 32859), (68, 27367), (69, 20981), (70, 18699), (71, 14791), (72, 11921),
    (73, 9933), (74, 9037), (75, 6538), (76, 6374), (77, 4036), (78, 4189), (79, 3842),
    (80, 3277), (81, 2925), (82, 1843), (83, 2060), (84, 1394), (85, 1514), (86, 1357),
    (87, 1346), (88, 999), (89, 300), (90, 390), (91, 510), (92, 510), (93, 240),
    (94, 721), (95, 360), (96, 360), (97, 390), (98, 330), (99, 540), (100, 258),
    (101, 210), (102, 60), (103, 180), (104, 206), (105, 60), (106, 390), (107, 180),
    (108, 180), (109, 150), (110, 120), (111, 360), (112, 120), (113, 210), (114, 60),
    (115, 30), (116, 210), (117, 270), (118, 450), (119, 240), (120, 228), (121, 120),
    (122, 30), (123, 420), (124, 240), (125, 210), (126, 158), (127, 180), (128, 60),
    (129, 30), (130, 120), (131, 30), (132, 120), (133, 60), (134, 240), (135, 169),
    (136, 240), (137, 30), (138, 270), (139, 180), (140, 270), (141, 150), (142, 60),
    (143, 60), (144, 240), (145, 180), (146, 150), (147, 150), (148, 90), (149, 90),
    (151, 30), (152, 60), (155, 90), (159, 30), (160, 60), (165, 30), (171, 30),
    (175, 30), (176, 60), (181, 30)]
  atom_types := [(0, 143905848), (1, 290), (2, 129988623), (3, 20266722), (4, 21669359),
    (5, 1481844), (6, 1), (7, 250), (8, 36290), (9, 3999872), (10, 1224394), (11, 4),
    (12, 298702), (13, 5377), (14, 13), (15, 34)]
  distances := none
  colors_dic := ["#FFFFFF99", "C2", "C7", "C0", "C3", "C1", "C5", "C6", "C4", "C8", "C9",
    "C10", "C11", "C12", "C13", "C14"]
  radius_dic := [3/10, 6/10, 6/10, 6/10, 6/10, 6/10, 6/10, 6/10, 6/10, 6/10, 6/10, 6/10,
    6/10, 6/10, 6/10, 6/10]
  with_h := true

/-- `geom_no_h` from `configs/datasets_config.py` (lines 95-115). -/
def geom_no_h : DatasetInfo where
  name := "geom"
  atom_encoder := [("B", 0), ("C", 1), ("N", 2), ("O", 3), ("F", 4), ("Al", 5), ("Si", 6),
    ("P", 7), ("S", 8), ("Cl", 9), ("As", 10), ("Br", 11), ("I", 12), ("Hg", 13),
    ("Bi", 14)]
  atomic_nb := some [5, 6, 7, 8, 9, 13, 14, 15, 16, 17, 33, 35, 53, 80, 83]
  atom_decoder := ["B", "C", "N", "O", "F", "Al", "Si", "P", "S", "Cl", "As", "Br", "I",
    "Hg", "Bi"]
  charge2idx := none
  max_n_nodes := 91
  n_nodes := [(1, 3), (2, 5), (3, 8), (4, 89), (5, 166), (6, 370), (7, 613), (8, 1214),
    (9, 1680), (10, 3315), (11, 5115), (12, 9873), (13, 15422), (14, 28088), (15, 50643),
    (16, 82299), (17, 124341), (18, 178417), (19, 240446), (20, 308209), (21, 372900),
    (22, 429257), (23, 477423), (24, 508377), (25, 522385), (26, 522000), (27, 507882),
    (28, 476702), (29, 426308), (30, 375819), (31, 310124), (32, 255179), (33, 204441),
    (34, 149383), (35, 109343), (36, 71701), (37, 44050), (38, 31437), (39, 20242),
    (40, 14971), (41, 10078), (42, 8049), (43, 4476), (44, 3130), (45, 1736), (46, 2030),
    (47, 1110), (48, 840), (49, 750), (50, 540), (51, 810), (52, 591), (53, 453),
    (54, 540), (55, 720), (56, 300), (57, 360), (58, 714), (59, 390), (60, 519),
    (61, 210), (62, 449), (63, 210), (64, 289), (65, 589), (66, 227), (67, 180),
    (68, 330), (69, 330), (70, 150), (71, 60), (72, 210), (73, 60), (74, 180), (75, 120),
    (76, 30), (77, 150), (78, 30), (79, 60), (82, 60), (85, 60), (86, 6), (87, 60),
    (90, 60), (91, 30)]
  atom_types := [(0, 290), (1, 129988623), (2, 20266722), (3, 21669359), (4, 1481844),
    (5, 1), (6, 250), (7, 36290), (8, 3999872), (9, 1224394), (10, 4), (11, 298702),
    (12, 5377), (13, 13), (14, 34)]
  distances := none
  colors_dic := ["C0", "C1", "C2", "C3", "C4", "C5", "C6", "C7", "C8", "C9", "C10", "C11",
    "C12", "C13", "C14"]
  radius_dic := [3/10, 3/10, 3/10, 3/10, 3/10, 3/10, 3/10, 3/10, 3/10, 3/10, 3/10, 3/10,
    3/10, 3/10, 3/10]
  with_h := false

/-- `get_dataset_info` from `configs/datasets_config.py` (lines 117-129).
The Python `raise Exception(...)` is embedded as `Except.error` with the
formatted message. -/
def get_dataset_info (dataset_name : String) (remove_h : Bool) : Except String DatasetInfo :=
  if dataset_name = "qm9" then
    if ¬remove_h then Except.ok qm9_with_h else Except.ok qm9_without_h
  else if dataset_name = "geom" then
    if ¬remove_h then Except.ok geom_with_h else Except.ok geom_no_h
  else
    Except.error ("Wrong dataset " ++ dataset_name)

/-- `len(atom_encoder) == len(atom_decoder)`, every encoder value indexes the
decoder, and decoding an encoded symbol returns that symbol. -/
def encoderDecoderConsistent (di : DatasetInfo) : Bool :=
  (di.atom_encoder.length == di.atom_decoder.length) &&
  di.atom_encoder.all fun p => (p.2 < di.atom_decoder.length) && (di.atom_decoder[p.2]? == some p.1)

/-! ### Embedding of `scripts/gen_qmugs.py` -/

/-- A latent vector (the code fixes dimensionality at 128; the rows of
`train_mems` and `z_prime` are such vectors). -/
abbrev Latent := List ℚ

/-- A matrix of latent mean vectors, one row per molecule
(`train_mems`, built from `np.empty((0,128))` by row concatenation). -/
abbrev Mems := List Latent

/-- A raw training batch as yielded by the external `QMugsDataLoader`. -/
abbrev TrainBatch := List (List ℚ)

/-- Modelled from the spec: the output of the external conformer
reconstructor for one molecule — 3-D positions, charges, one-hot atom and
bond tensors (spec section 4.3); the generation script only moves these
between the reconstructor and the encoder. -/
structure Molecule3D where
  pos : List (ℚ × ℚ × ℚ)
  charges : List Nat
  one_hot : List (List Bool)
  one_hot_edges : List (List Bool)
  deriving Repr, DecidableEq

/-- One row of the final result table (`data` dict of lines 127-129). -/
structure ResultRow where
  smiles : String
  predicted_property : Option ℚ
  incoherence : Option ℚ
  deriving Repr, DecidableEq

/-- Observable side effects of a run of `gen`, in program order. -/
inductive Effect where
  | mkdir (path : String)
  | loadData (dir : String)
  | saveNpy (path : String) (data : Mems)
  | writeCsv (path : String) (header : List String) (rows : List ResultRow)
  deriving Repr, DecidableEq

/-- The command-line arguments of `gen_qmugs.py` (lines 134-162). -/
structure GenArgs where
  name : String
  ckpt_epoch : String
  sample_dir : String
  n_samples : Nat
  sample_method : String
  decode_method : String
  temp : ℚ
  n_perturbations : Nat
  radius : ℚ
  data_dir : String
  batch_size : Nat
  num_workers : Nat
  max_length : Nat
  remove_h : Bool
  max_heavy_atoms : Nat
  properties : List String
  calc_coherence : Bool

/-- Modelled from the spec: the external collaborators of `gen` — the
`qmugs.utils` property-name table and data loader, the `Vagrant` model's
encoder/decoder/prior/property head, the `vagrant.utils` entropy
estimator, the robust sampler's perturbation and selection policy, the
conformer reconstructor, and the coherence distance; all are supplied by
modules outside `src/` and are treated as fixed interfaces (spec
sections 1, 4.1-4.4). `perturb seed j` is the j-th neighbor of `seed`
within the radius on the high-entropy dimensions; `select` is the
representative-selection policy the spec leaves open (section 9). -/
structure GenEnv where
  prop_key : String → String
  train_batches : List TrainBatch
  encodeBatch : TrainBatch → Mems
  fs_npy : String → Option Mems
  calc_entropy : Mems → Fin 128 → ℚ
  prior : Nat → Latent
  decode : Latent → String
  predictProp : Latent → ℚ
  perturb : Latent → Nat → Latent
  select : List String → String
  reconstruct : String → Option Molecule3D
  encodeMol : Molecule3D → Latent
  dist : String → String → ℚ

/-- `os.path.join` for the relative paths the script builds. -/
def pathJoin (a b : String) : String := a ++ "/" ++ b

/-- `gen_name = '{}_{}_{}'.format(args.name, args.sample_method, args.ckpt_epoch)`
(line 39). -/
def gen_name (args : GenArgs) : String :=
  args.name ++ "_" ++ args.sample_method ++ "_" ++ args.ckpt_epoch

/-- `gen_path = os.path.join(args.sample_dir, gen_name, '{}_gen.csv'.format(args.name))`
(line 41). -/
def gen_path (args : GenArgs) : String :=
  pathJoin (pathJoin args.sample_dir (gen_name args)) (args.name ++ "_gen.csv")

/-- `'checkpoints/{}/train_mems.npy'.format(args.name)` (lines 64 and 80). -/
def memsFile (name : String) : String :=
  "checkpoints/" ++ name ++ "/train_mems.npy"

/-- `args.predict_property` as set by lines 44-48: true exactly when the
mapped `properties` list is non-empty. -/
def predictPropertyOf (env : GenEnv) (args : GenArgs) : Bool :=
  (args.properties.map env.prop_key).length > 0

/-- `np.load` on the latent-means cache: the file system is a partial map,
and a missing file is the `FileNotFoundError` that line 65 catches. -/
def np_load (fs : String → Option Mems) (path : String) : Except String Mems :=
  match fs path with
  | some m => Except.ok m
  | none => Except.error "FileNotFoundError"

/-- The accumulation loop of lines 73-79: enumerate the batches from index
0, break as soon as the index reaches `n_train_batches`, otherwise encode
the batch and concatenate its mean rows onto the accumulator. -/
def accumulateMemsGo (enc : TrainBatch → Mems) (n_train_batches : Nat) :
    Nat → Mems → List TrainBatch → Mems
  | _, acc, [] => acc
  | i, acc, b :: bs =>
      if n_train_batches ≤ i then acc
      else accumulateMemsGo enc n_train_batches (i + 1) (acc ++ enc b) bs

/-- `train_mems` as recomputed on a cache miss (lines 70-79), starting from
the empty `(0,128)` matrix. -/
def accumulateMems (enc : TrainBatch → Mems) (n_train_batches : Nat)
    (batches : List TrainBatch) : Mems :=
  accumulateMemsGo enc n_train_batches 0 [] batches

/-- The `try np.load / except FileNotFoundError` block of lines 63-80:
on a hit the cached matrix is returned with no side effect; on a miss the
matrix is computed and saved once to the same path.  (`np_load` fails only
with `FileNotFoundError`, which is exactly what the `except` clause
catches, so the handler receives every error `np_load` can produce.) -/
def loadOrComputeMems (fs : String → Option Mems) (compute : Unit → Mems)
    (path : String) : Mems × List Effect :=
  match np_load fs path with
  | Except.ok m => (m, [])
  | Except.error _ =>
      let m := compute ()
      (m, [Effect.saveNpy path m])

/-- The latent-means stage of `gen` (lines 63-80): read the cache at
`checkpoints/<name>/train_mems.npy`, else accumulate at most 1000 encoded
training batches and save the result there. -/
def trainMemsStage (env : GenEnv) (args : GenArgs) : Mems × List Effect :=
  loadOrComputeMems env.fs_npy
    (fun _ => accumulateMems env.encodeBatch 1000 env.train_batches)
    (memsFile args.name)

/-- `np.where(train_entropy >= 5.)[0]` (line 82): the indices of the
dimensions whose entropy is at least 5, in increasing order. -/
def highEntropyDims (e : Fin 128 → ℚ) : List (Fin 128) :=
  (List.finRange 128).filter fun i => 5 ≤ e i

/-- `np.where(train_entropy < 5.)[0]` (line 83): the indices of the
dimensions whose entropy is below 5, in increasing order. -/
def lowEntropyDims (e : Fin 128 → ℚ) : List (Fin 128) :=
  (List.finRange 128).filter fun i => e i < 5

/-- Modelled from the spec: `Vagrant.sample_direct` (spec section 4.2) —
draw `n` latents from the prior, or use the supplied batch when
`from_z` is set; decode one molecule per latent, and return the molecules,
one predicted property per molecule when property prediction is enabled
(else absent/null, spec section 8), and the latents used. -/
def sample_direct (env : GenEnv) (predict_property : Bool) (n : Nat)
    (from_z : Bool) (z : List Latent) :
    List String × List (Option ℚ) × List Latent :=
  let zs := if from_z then z else (List.range n).map env.prior
  (zs.map env.decode,
   zs.map (fun v => if predict_property then some (env.predictProp v) else none),
   zs)

/-- Modelled from the spec: `Vagrant.sample_robust` (spec section 4.2) —
for each of `n` seed latents (prior draws, or the supplied batch when
`from_z` is set), decode `n_perturbations` neighbors within `radius` that
perturb only the high-entropy dimensions, and select one representative
molecule per seed by the (unspecified, section 9) selection policy;
properties and latents as in the direct variant. -/
def sample_robust (env : GenEnv) (predict_property : Bool) (n : Nat)
    (n_perturbations : Nat) (radius : ℚ) (hi lo : List (Fin 128))
    (from_z : Bool) (z : List Latent) :
    List String × List (Option ℚ) × List Latent :=
  let zs := if from_z then z else (List.range n).map env.prior
  (zs.map (fun s => env.select (((List.range n_perturbations).map (env.perturb s)).map env.decode)),
   zs.map (fun v => if predict_property then some (env.predictProp v) else none),
   zs)

/-- Modelled from the spec: `smiles_to_coords` (spec section 4.3) — a
fallible batch operation: each SMILES string either reconstructs to a 3-D
molecule or is dropped; the outputs keep input order and `regen_idxs` maps
each surviving output row back to its original input row. -/
def smiles_to_coords (rec : String → Option Molecule3D) (smiles : List String) :
    List Molecule3D × List String × List Nat :=
  let survivors := smiles.enum.filterMap fun p =>
    (rec p.2).map fun m => (p.1, p.2, m)
  (survivors.map (fun t => t.2.2), survivors.map (fun t => t.2.1),
   survivors.map (fun t => t.1))

/-- The `regen_idxs` component of `smiles_to_coords`. -/
def survivorIdxs (rec : String → Option Molecule3D) (smiles : List String) : List Nat :=
  (smiles_to_coords rec smiles).2.2

/-- The batched encoding loop over the reconstructed molecules
(lines 101-112): slices of `batch_size` rows are encoded in sequence and
their latent means concatenated in order.  The fuel argument bounds the
iteration count; `molecules.length` iterations always suffice when
`batch_size` is positive (a zero `batch_size` would make the Python
`range(0, n, batch_size)` raise, so it is excluded by hypothesis where
this is used). -/
def encodeChunks (enc : Molecule3D → Latent) (batch_size : Nat) :
    Nat → List Molecule3D → List Latent
  | 0, _ => []
  | _, [] => []
  | fuel + 1, ms => (ms.take batch_size).map enc ++
      encodeChunks enc batch_size fuel (ms.drop batch_size)

/-- `z_prime` (lines 101-112): the concatenation, in order, of the encoded
batches of reconstructed molecules. -/
def encodeBatched (enc : Molecule3D → Latent) (batch_size : Nat)
    (ms : List Molecule3D) : List Latent :=
  encodeChunks enc batch_size ms.length ms

/-- First position of `i` in a list of indices. -/
def idxOf? (i : Nat) : List Nat → Option Nat
  | [] => none
  | j :: js => if j = i then some 0 else (idxOf? i js).map (· + 1)

/-- Modelled from the spec: `calc_coherence(gen, regen, regen_idxs, dist=True)`
(spec section 4.4) — one entry per originally generated molecule: a
molecule whose row survived reconstruction (its index appears in
`regen_idxs`, at position `j`) receives the distance between it and its
regenerated counterpart `regen[j]`; a dropped molecule receives no score
(absent, not zero), with alignment given by the index map. -/
def calc_coherence (d : String → String → ℚ) (gen regen : List String)
    (regen_idxs : List Nat) : List (Option ℚ) :=
  (List.range gen.length).map fun i =>
    match idxOf? i regen_idxs with
    | some j => gen[i]?.bind fun g => regen[j]?.map fun r => d g r
    | none => none

/-- `zipWith3`, used to assemble the three equal-length columns of the
result table into rows. -/
def zipWith3 (f : α → β → γ → δ) : List α → List β → List γ → List δ
  | a :: as, b :: bs, c :: cs => f a b c :: zipWith3 f as bs cs
  | _, _, _ => []

/-- The column names of the `data` dict written at lines 127-131. -/
def resultHeader : List String := ["smiles", "predicted_property", "incoherence"]

/-- The sampling stage (lines 87-92): `direct` and `robust` assign the
triple `(gen, pred_props, sampled_z)`; any other method leaves the
variables unassigned, so their later use raises (`none`).  `argparse`
restricts the flag to the two recognized values. -/
def sampleStage (env : GenEnv) (args : GenArgs) (predict_property : Bool)
    (hi lo : List (Fin 128)) :
    Option (List String × List (Option ℚ) × List Latent) :=
  if args.sample_method = "direct" then
    some (sample_direct env predict_property args.n_samples false [])
  else if args.sample_method = "robust" then
    some (sample_robust env predict_property args.n_samples args.n_perturbations
      args.radius hi lo false [])
  else none

/-- The incoherence column (lines 94-124): when `calc_coherence` is
requested, reconstruct the generated SMILES, re-encode the survivors in
batches, regenerate from `z_prime` with the same sampling method, and
score each original row through the survivor index map; otherwise the
column is `[None] * n_samples`. -/
def incoherenceStage (env : GenEnv) (args : GenArgs) (predict_property : Bool)
    (hi lo : List (Fin 128)) (gen : List String) : List (Option ℚ) :=
  if args.calc_coherence then
    let reconstructed := smiles_to_coords env.reconstruct gen
    let mols := reconstructed.1
    let regen_idxs := reconstructed.2.2
    let z_prime := encodeBatched env.encodeMol args.batch_size mols
    let regen :=
      if args.sample_method = "direct" then
        (sample_direct env predict_property z_prime.length true z_prime).1
      else
        (sample_robust env predict_property z_prime.length args.n_perturbations
          args.radius hi lo true z_prime).1
    calc_coherence env.dist gen regen regen_idxs
  else
    List.replicate args.n_samples none

/-- `train_entropy = calc_entropy(train_mems)` (line 81), with
`train_mems` from the cache stage. -/
def pipelineEntropy (env : GenEnv) (args : GenArgs) : Fin 128 → ℚ :=
  env.calc_entropy (trainMemsStage env args).1

/-- The sampling stage applied to the run's entropy partition. -/
def pipelineSample (env : GenEnv) (args : GenArgs) (predict_property : Bool) :
    Option (List String × List (Option ℚ) × List Latent) :=
  sampleStage env args predict_property
    (highEntropyDims (pipelineEntropy env args))
    (lowEntropyDims (pipelineEntropy env args))

/-- The rows of the `data` dict (lines 127-130): the three equal-length
columns `gen`, `pred_props[:,0]` and `incoherence` zipped into rows. -/
def pipelineRows (env : GenEnv) (args : GenArgs) (predict_property : Bool)
    (gen : List String) (pred_props : List (Option ℚ)) : List ResultRow :=
  zipWith3 ResultRow.mk gen pred_props
    (incoherenceStage env args predict_property
      (highEntropyDims (pipelineEntropy env args))
      (lowEntropyDims (pipelineEntropy env args)) gen)

/-- Lines 50-131 of `gen`: everything after the dataset-registry lookup.
Loading the raw datasets (line 50) is recorded as an effect; reading
`dataset_info['atomic_nb']` (line 52) raises `KeyError` when the variant
has no such key; then the latent-means cache stage, the entropy partition,
sampling, the optional incoherence computation, and the CSV write. -/
def runPipeline (env : GenEnv) (args : GenArgs) (predict_property : Bool)
    (di : DatasetInfo) (gpath : String) : List Effect × Except String Unit :=
  let loadEffs := [Effect.loadData args.data_dir]
  match di.atomic_nb with
  | none => (loadEffs, Except.error "KeyError: atomic_nb")
  | some _included_species =>
    let effs := loadEffs ++ (trainMemsStage env args).2
    match pipelineSample env args predict_property with
    | none => (effs, Except.error "NameError: gen")
    | some (gen, pred_props, _sampled_z) =>
      let rows := pipelineRows env args predict_property gen pred_props
      (effs ++ [Effect.writeCsv gpath resultHeader rows], Except.ok ())

/-- The entry point `gen` (lines 31-131): create the two output
directories, map the property names and set `predict_property`, look up
`get_dataset_info('qmugs', remove_h=args.remove_h)` (line 49), and on
success run the rest of the pipeline.  Device/dtype setup (lines 33-35)
has no observable effect here and the checkpoint path is only consumed by
the external model. -/
def gen (env : GenEnv) (args : GenArgs) : List Effect × Except String Unit :=
  let dirEffs := [Effect.mkdir args.sample_dir,
                  Effect.mkdir (pathJoin args.sample_dir (gen_name args))]
  let predict_property := predictPropertyOf env args
  match get_dataset_info "qmugs" args.remove_h with
  | Except.error e => (dirEffs, Except.error e)
  | Except.ok di =>
      let r := runPipeline env args predict_property di (gen_path args)
      (dirEffs ++ r.1, r.2)

/-- The CSV writes among a run's effects, as `(path, header, rows)`. -/
def csvWrites (effs : List Effect) : List (String × List String × List ResultRow) :=
  effs.filterMap fun e =>
    match e with
    | Effect.writeCsv p h r => some (p, h, r)
    | _ => none

/-- `os.makedirs(path, exist_ok=True)` on a directory state: creates the
directory if missing, and is a no-op (rather than an error) when the
directory already exists. -/
def makedirs_exist_ok (dirs : List String) (path : String) : List String :=
  if path ∈ dirs then dirs else path :: dirs

/-! ### Concrete instances used to exercise the definitions -/

/-- A concrete environment instantiating the external collaborators. -/
def envW : GenEnv where
  prop_key := fun s => s
  train_batches := [[[1]], [[2]]]
  encodeBatch := fun b => b
  fs_npy := fun _ => none
  calc_entropy := fun _ _ => 0
  prior := fun _ => [0]
  decode := fun _ => "C"
  predictProp := fun _ => 1
  perturb := fun s _ => s
  select := fun l => l.headD ""
  reconstruct := fun _ => some ⟨[], [], [], []⟩
  encodeMol := fun _ => [0]
  dist := fun _ _ => 0

/-- A concrete argument record matching the script's defaults, with a
run name, two samples, one property, and no coherence evaluation. -/
def argsW : GenArgs where
  name := "run"
  ckpt_epoch := "1000"
  sample_dir := "samples"
  n_samples := 2
  sample_method := "direct"
  decode_method := "greedy"
  temp := 1/2
  n_perturbations := 100
  radius := 1/10
  data_dir := "./data/qmugs"
  batch_size := 1
  num_workers := 0
  max_length := 125
  remove_h := false
  max_heavy_atoms := 50
  properties := ["homo"]
  calc_coherence := false

/-- `argsW` with coherence evaluation requested. -/
def argsC : GenArgs := { argsW with calc_coherence := true }

/-! ### Theorems -/

/-- C1: for every environment and every command-line configuration, `gen`
reaches `get_dataset_info('qmugs', remove_h=args.remove_h)` and fails
there, because `'qmugs'` is neither `'qm9'` nor `'geom'`; the only
effects performed before the failure are the creation of the two sample
output directories — no data loading, latent-means computation, sampling,
or CSV writing occurs. -/
theorem gen_always_fails_at_qmugs_lookup (env : GenEnv) (args : GenArgs) :
    gen env args =
      ([Effect.mkdir args.sample_dir,
        Effect.mkdir (pathJoin args.sample_dir (gen_name args))],
       Except.error "Wrong dataset qmugs") := by
  rfl

/-- C2 counterexample: the claim says every one of the four variants
carries an `atomic_nb` field, but `get_dataset_info('qm9', False)` returns
`qm9_with_h`, whose dict has no `'atomic_nb'` key. -/
theorem qm9_with_h_lacks_atomic_nb :
    get_dataset_info "qm9" false = Except.ok qm9_with_h ∧
    qm9_with_h.atomic_nb = none :=
  ⟨rfl, rfl⟩

/-- C2 amended: only the two geom variants carry the `atomic_nb` list the
generation script reads; the two qm9 variants have no `atomic_nb` field
(each instead carries `charge2idx`), while all four carry the encoder,
decoder, maximum node count, histograms, and display metadata as record
fields. -/
theorem atomic_nb_only_in_geom_variants :
    geom_with_h.atomic_nb =
      some [1, 5, 6, 7, 8, 9, 13, 14, 15, 16, 17, 33, 35, 53, 80, 83] ∧
    geom_no_h.atomic_nb = some [5, 6, 7, 8, 9, 13, 14, 15, 16, 17, 33, 35, 53, 80, 83] ∧
    qm9_with_h.atomic_nb = none ∧
    qm9_without_h.atomic_nb = none ∧
    qm9_with_h.charge2idx.isSome = true ∧
    qm9_without_h.charge2idx.isSome = true :=
  ⟨rfl, rfl, rfl, rfl, rfl, rfl⟩

/-- C3: `get_dataset_info` raises for every dataset name other than
`'qm9'` and `'geom'`, and for those two names returns exactly the variant
selected by the `remove_h` flag. -/
theorem get_dataset_info_selects (dataset_name : String) (remove_h : Bool) :
    (dataset_name ≠ "qm9" → dataset_name ≠ "geom" →
      get_dataset_info dataset_name remove_h =
        Except.error ("Wrong dataset " ++ dataset_name)) ∧
    get_dataset_info "qm9" false = Except.ok qm9_with_h ∧
    get_dataset_info "qm9" true = Except.ok qm9_without_h ∧
    get_dataset_info "geom" false = Except.ok geom_with_h ∧
    get_dataset_info "geom" true = Except.ok geom_no_h := by
  refine ⟨fun h1 h2 => ?_, rfl, rfl, rfl, rfl⟩
  simp [get_dataset_info, h1, h2]

/-- C3 witness: the lookup fails at the concrete unrecognized name
`'qmugs'` and succeeds at `'qm9'`. -/
theorem get_dataset_info_selects_witness :
    get_dataset_info "qmugs" false = Except.error "Wrong dataset qmugs" ∧
    get_dataset_info "qm9" false = Except.ok qm9_with_h :=
  ⟨(get_dataset_info_selects "qmugs" false).1 (by decide) (by decide),
   (get_dataset_info_selects "qmugs" false).2.1⟩

/-- C5: the entropy partition at threshold 5.0 is exhaustive and disjoint:
every one of the 128 latent dimensions lies in the high-entropy set or in
the low-entropy set, and in exactly one of the two. -/
theorem entropy_partition_exhaustive_disjoint (env : GenEnv) (mems : Mems)
    (i : Fin 128) :
    (i ∈ highEntropyDims (env.calc_entropy mems) ∨
     i ∈ lowEntropyDims (env.calc_entropy mems)) ∧
    ¬(i ∈ highEntropyDims (env.calc_entropy mems) ∧
      i ∈ lowEntropyDims (env.calc_entropy mems)) := by
  constructor
  · rcases le_or_lt 5 (env.calc_entropy mems i) with h | h
    · exact Or.inl (by simp [highEntropyDims, List.mem_filter, h])
    · exact Or.inr (by simp [lowEntropyDims, List.mem_filter, h])
  · rintro ⟨h1, h2⟩
    simp [highEntropyDims, lowEntropyDims, List.mem_filter] at h1 h2
    exact absurd h2 (not_lt.mpr h1)

/-- C6: for all four dataset variants, the encoder and decoder have the
same length, every encoder value is a valid index into the decoder list,
and decoding an encoded symbol returns that symbol. -/
theorem all_variants_encoder_decoder_consistent :
    ([qm9_with_h, qm9_without_h, geom_with_h, geom_no_h].all
      encoderDecoderConsistent) = true := by
  decide

/-- C7: the latent-means cache at `checkpoints/<name>/train_mems.npy` is
read when present (no recomputation, no write); when absent, the
`FileNotFoundError` is recovered locally: the means are computed and
written exactly once to that same path, and a value is still returned, so
the run continues. -/
theorem mems_cache_hit_or_recovered_miss (fs : String → Option Mems)
    (compute : Unit → Mems) (name : String) :
    (∀ m, fs (memsFile name) = some m →
      loadOrComputeMems fs compute (memsFile name) = (m, [])) ∧
    (fs (memsFile name) = none →
      loadOrComputeMems fs compute (memsFile name) =
        (compute (), [Effect.saveNpy (memsFile name) (compute ())])) := by
  constructor
  · intro m hm
    simp [loadOrComputeMems, np_load, hm]
  · intro hm
    simp [loadOrComputeMems, np_load, hm]

/-- C7 witness: a concrete hit returns the cached matrix with no write,
and a concrete miss computes the matrix and saves it to the same path. -/
theorem mems_cache_hit_or_recovered_miss_witness :
    loadOrComputeMems (fun _ => some [[2]]) (fun _ => [[1]]) (memsFile "run") =
      ([[2]], []) ∧
    loadOrComputeMems (fun _ => none) (fun _ => [[1]]) (memsFile "run") =
      ([[1]], [Effect.saveNpy (memsFile "run") [[1]]]) :=
  ⟨(mems_cache_hit_or_recovered_miss (fun _ => some [[2]]) (fun _ => [[1]]) "run").1
      [[2]] rfl,
   (mems_cache_hit_or_recovered_miss (fun _ => none) (fun _ => [[1]]) "run").2 rfl⟩

/-- The accumulation loop unrolled: starting at index `i` with accumulator
`acc`, the loop appends the encodings of the first `n - i` remaining
batches. -/
theorem accumulateMemsGo_eq (enc : TrainBatch → Mems) (n : Nat) :
    ∀ (bs : List TrainBatch) (i : Nat) (acc : Mems),
      accumulateMemsGo enc n i acc bs = acc ++ (bs.take (n - i)).flatMap enc := by
  intro bs
  induction bs with
  | nil =>
    intro i acc
    simp [accumulateMemsGo]
  | cons b bs ih =>
    intro i acc
    by_cases h : n ≤ i
    · simp [accumulateMemsGo, h, Nat.sub_eq_zero_of_le h]
    · have hk : n - i = (n - (i + 1)) + 1 := by omega
      simp only [accumulateMemsGo, if_neg h, ih, hk, List.take_succ_cons,
        List.flatMap_cons, List.append_assoc]

/-- C8: the recomputation loop breaks as soon as the batch index reaches
1000, so the accumulated means matrix is exactly the concatenation of the
encoded rows of the first `min(number of batches, 1000)` batches. -/
theorem accumulateMems_caps_at_1000 (enc : TrainBatch → Mems)
    (batches : List TrainBatch) :
    accumulateMems enc 1000 batches = (batches.take 1000).flatMap enc ∧
    (batches.take 1000).length = min batches.length 1000 := by
  constructor
  · simpa [accumulateMems] using accumulateMemsGo_eq enc 1000 batches 0 []
  · simp [List.length_take, Nat.min_comm]

/-! ### Helper lemmas for the pipeline theorems -/

theorem trainMemsStage_no_csv (env : GenEnv) (args : GenArgs) :
    csvWrites (trainMemsStage env args).2 = [] := by
  unfold trainMemsStage loadOrComputeMems np_load
  cases env.fs_npy (memsFile args.name) <;> simp [csvWrites]

theorem predictPropertyOf_eq (env : GenEnv) (args : GenArgs) :
    predictPropertyOf env args = decide (args.properties ≠ []) := by
  unfold predictPropertyOf
  cases args.properties <;> simp

theorem mem_zipWith3 {α β γ δ : Type} {f : α → β → γ → δ} :
    ∀ {as : List α} {bs : List β} {cs : List γ} {d : δ},
      d ∈ zipWith3 f as bs cs →
      ∃ a b c, a ∈ as ∧ b ∈ bs ∧ c ∈ cs ∧ d = f a b c := by
  intro as
  induction as with
  | nil => intro bs cs d h; simp [zipWith3] at h
  | cons a as ih =>
    intro bs cs d h
    cases bs with
    | nil => simp [zipWith3] at h
    | cons b bs =>
      cases cs with
      | nil => simp [zipWith3] at h
      | cons c cs =>
        simp only [zipWith3, List.mem_cons] at h
        rcases h with h | h
        · exact ⟨a, b, c, by simp, by simp, by simp, h⟩
        · obtain ⟨x, y, w, hx, hy, hw, hd⟩ := ih h
          exact ⟨x, y, w, by simp [hx], by simp [hy], by simp [hw], hd⟩

theorem zipWith3_length {α β γ δ : Type} (f : α → β → γ → δ) :
    ∀ (as : List α) (bs : List β) (cs : List γ),
      (zipWith3 f as bs cs).length = min as.length (min bs.length cs.length) := by
  intro as
  induction as with
  | nil => intro bs cs; simp [zipWith3]
  | cons a as ih =>
    intro bs cs
    cases bs with
    | nil => simp [zipWith3]
    | cons b bs =>
      cases cs with
      | nil => simp [zipWith3]
      | cons c cs =>
        simp only [zipWith3, List.length_cons, ih]
        omega

theorem zipWith3_get {α β γ δ : Type} (f : α → β → γ → δ) :
    ∀ (as : List α) (bs : List β) (cs : List γ) (i : Nat)
      (h : i < (zipWith3 f as bs cs).length) (ha : i < as.length)
      (hb : i < bs.length) (hc : i < cs.length),
      (zipWith3 f as bs cs).get ⟨i, h⟩ =
        f (as.get ⟨i, ha⟩) (bs.get ⟨i, hb⟩) (cs.get ⟨i, hc⟩) := by
  intro as
  induction as with
  | nil => intro bs cs i h ha; simp at ha
  | cons a as ih =>
    intro bs cs i h ha hb hc
    cases bs with
    | nil => simp at hb
    | cons b bs =>
      cases cs with
      | nil => simp at hc
      | cons c cs =>
        cases i with
        | zero => rfl
        | succ i => exact ih bs cs i _ _ _ _

theorem pipelineSample_isSome (env : GenEnv) (args : GenArgs) (pp : Bool)
    (hm : args.sample_method = "direct" ∨ args.sample_method = "robust") :
    ∃ g props z, pipelineSample env args pp = some (g, props, z) := by
  rcases hm with h | h
  · refine ⟨(sample_direct env pp args.n_samples false []).1,
      (sample_direct env pp args.n_samples false []).2.1,
      (sample_direct env pp args.n_samples false []).2.2, ?_⟩
    simp [pipelineSample, sampleStage, h]
  · refine ⟨(sample_robust env pp args.n_samples args.n_perturbations args.radius
        (highEntropyDims (pipelineEntropy env args))
        (lowEntropyDims (pipelineEntropy env args)) false []).1,
      (sample_robust env pp args.n_samples args.n_perturbations args.radius
        (highEntropyDims (pipelineEntropy env args))
        (lowEntropyDims (pipelineEntropy env args)) false []).2.1,
      (sample_robust env pp args.n_samples args.n_perturbations args.radius
        (highEntropyDims (pipelineEntropy env args))
        (lowEntropyDims (pipelineEntropy env args)) false []).2.2, ?_⟩
    simp only [pipelineSample, sampleStage, h]
    rw [if_neg (by decide)]
    simp

theorem pipelineSample_lengths (env : GenEnv) (args : GenArgs) (pp : Bool)
    (g : List String) (props : List (Option ℚ)) (z : List Latent)
    (hg : pipelineSample env args pp = some (g, props, z)) :
    g.length = args.n_samples ∧ props.length = args.n_samples ∧
    ∀ b ∈ props, b.isSome = pp := by
  unfold pipelineSample sampleStage at hg
  by_cases h1 : args.sample_method = "direct"
  · rw [if_pos h1] at hg
    simp only [sample_direct, if_neg Bool.false_ne_true, Option.some.injEq,
      Prod.mk.injEq] at hg
    obtain ⟨hg1, hg2, _⟩ := hg
    subst hg1; subst hg2
    refine ⟨by simp, by simp, ?_⟩
    intro b hb
    simp only [List.mem_map] at hb
    obtain ⟨v, _, hv⟩ := hb
    cases pp <;> simp [← hv]
  · rw [if_neg h1] at hg
    by_cases h2 : args.sample_method = "robust"
    · rw [if_pos h2] at hg
      simp only [sample_robust, if_neg Bool.false_ne_true, Option.some.injEq,
        Prod.mk.injEq] at hg
      obtain ⟨hg1, hg2, _⟩ := hg
      subst hg1; subst hg2
      refine ⟨by simp, by simp, ?_⟩
      intro b hb
      simp only [List.mem_map] at hb
      obtain ⟨v, _, hv⟩ := hb
      cases pp <;> simp [← hv]
    · rw [if_neg h2] at hg
      exact absurd hg (by simp)

theorem runPipeline_writes (env : GenEnv) (args : GenArgs) (pp : Bool)
    (di : DatasetInfo) (nb : List Nat) (gpath : String)
    (g : List String) (props : List (Option ℚ)) (z : List Latent)
    (hnb : di.atomic_nb = some nb)
    (hg : pipelineSample env args pp = some (g, props, z)) :
    csvWrites (runPipeline env args pp di gpath).1 =
      [(gpath, resultHeader, pipelineRows env args pp g props)] ∧
    (runPipeline env args pp di gpath).2 = Except.ok () := by
  have happ : ∀ l1 l2 : List Effect,
      csvWrites (l1 ++ l2) = csvWrites l1 ++ csvWrites l2 := by
    intro l1 l2
    simp [csvWrites, List.filterMap_append]
  unfold runPipeline
  rw [hnb, hg]
  constructor
  · show csvWrites ([Effect.loadData args.data_dir] ++ (trainMemsStage env args).2
        ++ [Effect.writeCsv _ _ _]) = _
    rw [happ, happ, trainMemsStage_no_csv]
    simp [csvWrites]
  · rfl

/-- C4: in the result table written by the pipeline, a row's
predicted-property value is present exactly when the `properties`
argument is non-empty: with an empty list property prediction is disabled
and the value is null in every row, with a non-empty list every row
carries one predicted value.  (Stated for any variant carrying
`atomic_nb` and either recognized sampling method, since otherwise the
pipeline faults before writing.) -/
theorem predicted_property_present_iff_properties_nonempty
    (env : GenEnv) (args : GenArgs) (di : DatasetInfo) (nb : List Nat)
    (gpath : String) (hnb : di.atomic_nb = some nb)
    (hm : args.sample_method = "direct" ∨ args.sample_method = "robust") :
    ∀ t ∈ csvWrites (runPipeline env args (predictPropertyOf env args) di gpath).1,
      ∀ row ∈ t.2.2,
        row.predicted_property.isSome = decide (args.properties ≠ []) := by
  obtain ⟨g, props, z, hg⟩ := pipelineSample_isSome env args (predictPropertyOf env args) hm
  obtain ⟨hw, -⟩ := runPipeline_writes env args _ di nb gpath g props z hnb hg
  intro t ht row hrow
  rw [hw] at ht
  simp only [List.mem_singleton] at ht
  subst ht
  obtain ⟨a, b, c, _, hb, _, hrow_eq⟩ := mem_zipWith3 hrow
  obtain ⟨-, -, hprops⟩ := pipelineSample_lengths env args _ g props z hg
  rw [hrow_eq]
  show b.isSome = _
  rw [hprops b hb, predictPropertyOf_eq]

/-- C4 witness: in a concrete run with one property name, the first
written row carries a present predicted-property value. -/
theorem predicted_property_present_iff_properties_nonempty_witness :
    (ResultRow.mk "C" (some 1) none).predicted_property.isSome =
      decide (argsW.properties ≠ []) :=
  predicted_property_present_iff_properties_nonempty envW argsW geom_with_h
    [1, 5, 6, 7, 8, 9, 13, 14, 15, 16, 17, 33, 35, 53, 80, 83] (gen_path argsW)
    rfl (Or.inl rfl)
    (gen_path argsW, resultHeader,
      [ResultRow.mk "C" (some 1) none, ResultRow.mk "C" (some 1) none])
    (List.mem_singleton.mpr rfl)
    (ResultRow.mk "C" (some 1) none)
    (List.mem_cons_self _ _)

/-- C10: a completed pipeline run writes exactly one CSV, at
`<sample_dir>/<name>_<sample_method>_<ckpt_epoch>/<name>_gen.csv`, with
exactly the columns `smiles`, `predicted_property`, `incoherence`, and
returns successfully; and directory creation with `exist_ok=True` is
idempotent. -/
theorem csv_written_at_path_with_columns_and_mkdir_idempotent
    (env : GenEnv) (args : GenArgs) (di : DatasetInfo) (nb : List Nat) (pp : Bool)
    (hnb : di.atomic_nb = some nb)
    (hm : args.sample_method = "direct" ∨ args.sample_method = "robust") :
    (∃ rows,
      csvWrites (runPipeline env args pp di (gen_path args)).1 =
        [(pathJoin (pathJoin args.sample_dir
            (args.name ++ "_" ++ args.sample_method ++ "_" ++ args.ckpt_epoch))
            (args.name ++ "_gen.csv"),
          ["smiles", "predicted_property", "incoherence"], rows)] ∧
      (runPipeline env args pp di (gen_path args)).2 = Except.ok ()) ∧
    ∀ (dirs : List String) (p : String),
      makedirs_exist_ok (makedirs_exist_ok dirs p) p = makedirs_exist_ok dirs p := by
  constructor
  · obtain ⟨g, props, z, hg⟩ := pipelineSample_isSome env args pp hm
    obtain ⟨hw, hok⟩ := runPipeline_writes env args pp di nb (gen_path args) g props z hnb hg
    exact ⟨_, hw, hok⟩
  · intro dirs p
    by_cases h : p ∈ dirs
    · simp [makedirs_exist_ok, h]
    · simp [makedirs_exist_ok, h]

/-- C10 witness: the concrete run writes its single CSV at the expected
path with the three columns, and a repeated `makedirs` is a no-op. -/
theorem csv_written_witness :
    (∃ rows,
      csvWrites (runPipeline envW argsW true geom_with_h (gen_path argsW)).1 =
        [(pathJoin (pathJoin argsW.sample_dir
            (argsW.name ++ "_" ++ argsW.sample_method ++ "_" ++ argsW.ckpt_epoch))
            (argsW.name ++ "_gen.csv"),
          ["smiles", "predicted_property", "incoherence"], rows)] ∧
      (runPipeline envW argsW true geom_with_h (gen_path argsW)).2 = Except.ok ()) ∧
    makedirs_exist_ok (makedirs_exist_ok ["samples"] "samples/run_direct_1000")
        "samples/run_direct_1000" =
      makedirs_exist_ok ["samples"] "samples/run_direct_1000" :=
  ⟨(csv_written_at_path_with_columns_and_mkdir_idempotent envW argsW geom_with_h _
      true rfl (Or.inl rfl)).1,
   (csv_written_at_path_with_columns_and_mkdir_idempotent envW argsW geom_with_h _
      true rfl (Or.inl rfl)).2 ["samples"] "samples/run_direct_1000"⟩

/-! ### Lemmas for the incoherence column -/

theorem encodeChunks_eq_map (enc : Molecule3D → Latent) (bsz : Nat) (hb : 0 < bsz) :
    ∀ (fuel : Nat) (ms : List Molecule3D), ms.length ≤ fuel →
      encodeChunks enc bsz fuel ms = ms.map enc := by
  intro fuel
  induction fuel with
  | zero =>
    intro ms h
    cases ms with
    | nil => rfl
    | cons m ms => simp at h
  | succ fuel ih =>
    intro ms h
    cases ms with
    | nil => rfl
    | cons m ms =>
      show (List.take bsz (m :: ms)).map enc ++
          encodeChunks enc bsz fuel (List.drop bsz (m :: ms)) = (m :: ms).map enc
      rw [ih (List.drop bsz (m :: ms))
          (by rw [List.length_drop]; simp only [List.length_cons] at h ⊢; omega)]
      rw [← List.map_append, List.take_append_drop]

theorem encodeBatched_eq_map (enc : Molecule3D → Latent) (bsz : Nat)
    (hb : 0 < bsz) (ms : List Molecule3D) :
    encodeBatched enc bsz ms = ms.map enc :=
  encodeChunks_eq_map enc bsz hb ms.length ms le_rfl

theorem idxOf?_of_mem : ∀ {xs : List Nat} {i : Nat}, i ∈ xs →
    ∃ j, idxOf? i xs = some j ∧ j < xs.length := by
  intro xs
  induction xs with
  | nil => intro i h; simp at h
  | cons x xs ih =>
    intro i h
    by_cases hx : x = i
    · exact ⟨0, by simp [idxOf?, hx], by simp⟩
    · have hmem : i ∈ xs := by
        rcases List.mem_cons.mp h with h₁ | h₁
        · exact absurd h₁.symm hx
        · exact h₁
      obtain ⟨j, hj, hjl⟩ := ih hmem
      refine ⟨j + 1, by simp [idxOf?, hx, hj], ?_⟩
      simp only [List.length_cons]
      omega

theorem mem_of_idxOf? : ∀ {xs : List Nat} {i j : Nat}, idxOf? i xs = some j →
    i ∈ xs ∧ j < xs.length := by
  intro xs
  induction xs with
  | nil => intro i j h; simp [idxOf?] at h
  | cons x xs ih =>
    intro i j h
    by_cases hx : x = i
    · subst hx
      simp [idxOf?] at h
      exact ⟨List.mem_cons_self x xs, by simp only [List.length_cons]; omega⟩
    · simp only [idxOf?, if_neg hx, Option.map_eq_some'] at h
      obtain ⟨j', hj', hjj⟩ := h
      obtain ⟨hmem, hlt⟩ := ih hj'
      refine ⟨List.mem_cons_of_mem x hmem, ?_⟩
      simp only [List.length_cons]
      omega

theorem smiles_to_coords_lengths (rec : String → Option Molecule3D)
    (smiles : List String) :
    (smiles_to_coords rec smiles).1.length =
      (smiles_to_coords rec smiles).2.2.length := by
  simp [smiles_to_coords]

theorem calc_coherence_length (d : String → String → ℚ) (gen regen : List String)
    (idxs : List Nat) : (calc_coherence d gen regen idxs).length = gen.length := by
  simp [calc_coherence]

theorem calc_coherence_isSome_iff (d : String → String → ℚ)
    (gen regen : List String) (idxs : List Nat)
    (hlen : regen.length = idxs.length) (i : Nat)
    (h : i < (calc_coherence d gen regen idxs).length) (hig : i < gen.length) :
    ((calc_coherence d gen regen idxs).get ⟨i, h⟩).isSome ↔ i ∈ idxs := by
  have hget : (calc_coherence d gen regen idxs).get ⟨i, h⟩ =
      match idxOf? i idxs with
      | some j => gen[i]?.bind fun g => regen[j]?.map fun r => d g r
      | none => none := by
    simp [calc_coherence, List.get_eq_getElem]
  rw [hget]
  constructor
  · cases hidx : idxOf? i idxs with
    | none => simp
    | some j => intro _; exact (mem_of_idxOf? hidx).1
  · intro hm
    obtain ⟨j, hj, hjl⟩ := idxOf?_of_mem hm
    rw [hj]
    have h1 : gen[i]? = some gen[i] := List.getElem?_eq_getElem hig
    have h2 : regen[j]? = some regen[j] := List.getElem?_eq_getElem (by omega)
    simp [h1, h2]

theorem incoherenceStage_false (env : GenEnv) (args : GenArgs) (pp : Bool)
    (hi lo : List (Fin 128)) (g : List String)
    (hc : args.calc_coherence = false) :
    incoherenceStage env args pp hi lo g = List.replicate args.n_samples none := by
  simp [incoherenceStage, hc]

theorem incoherenceStage_true (env : GenEnv) (args : GenArgs) (pp : Bool)
    (hi lo : List (Fin 128)) (g : List String)
    (hc : args.calc_coherence = true) (hbs : 0 < args.batch_size) :
    ∃ regen : List String,
      incoherenceStage env args pp hi lo g =
        calc_coherence env.dist g regen (smiles_to_coords env.reconstruct g).2.2 ∧
      regen.length = (smiles_to_coords env.reconstruct g).2.2.length := by
  refine ⟨if args.sample_method = "direct" then
      (sample_direct env pp
        (encodeBatched env.encodeMol args.batch_size
          (smiles_to_coords env.reconstruct g).1).length true
        (encodeBatched env.encodeMol args.batch_size
          (smiles_to_coords env.reconstruct g).1)).1
    else
      (sample_robust env pp
        (encodeBatched env.encodeMol args.batch_size
          (smiles_to_coords env.reconstruct g).1).length
        args.n_perturbations args.radius hi lo true
        (encodeBatched env.encodeMol args.batch_size
          (smiles_to_coords env.reconstruct g).1)).1, ?_, ?_⟩
  · unfold incoherenceStage
    rw [hc]
    rfl
  · by_cases hd : args.sample_method = "direct"
    · simp [hd, sample_direct,
        encodeBatched_eq_map env.encodeMol args.batch_size hbs,
        smiles_to_coords_lengths]
    · simp [hd, sample_robust,
        encodeBatched_eq_map env.encodeMol args.batch_size hbs,
        smiles_to_coords_lengths]

theorem incoherenceStage_length (env : GenEnv) (args : GenArgs) (pp : Bool)
    (hi lo : List (Fin 128)) (g : List String)
    (hgl : g.length = args.n_samples) :
    (incoherenceStage env args pp hi lo g).length = args.n_samples := by
  cases hc : args.calc_coherence
  · simp [incoherenceStage, hc]
  · simp [incoherenceStage, hc, calc_coherence, hgl]

theorem pipelineRows_length (env : GenEnv) (args : GenArgs) (pp : Bool)
    (g : List String) (props : List (Option ℚ))
    (hgl : g.length = args.n_samples) (hpl : props.length = args.n_samples) :
    (pipelineRows env args pp g props).length = args.n_samples := by
  unfold pipelineRows
  rw [zipWith3_length, hgl, hpl, incoherenceStage_length env args pp _ _ g hgl]
  simp

theorem zipWith3_getElem? {α β γ δ : Type} (f : α → β → γ → δ) :
    ∀ (as : List α) (bs : List β) (cs : List γ) (i : Nat)
      (ha : i < as.length) (hb : i < bs.length) (hc : i < cs.length),
      (zipWith3 f as bs cs)[i]? =
        some (f (as.get ⟨i, ha⟩) (bs.get ⟨i, hb⟩) (cs.get ⟨i, hc⟩)) := by
  intro as
  induction as with
  | nil => intro bs cs i ha; simp at ha
  | cons a as ih =>
    intro bs cs i ha hb hc
    cases bs with
    | nil => simp at hb
    | cons b bs =>
      cases cs with
      | nil => simp at hc
      | cons c cs =>
        cases i with
        | zero => simp [zipWith3]
        | succ i =>
          simp only [zipWith3, List.getElem?_cons_succ]
          exact ih bs cs i (by simpa using ha) (by simpa using hb) (by simpa using hc)

theorem pipelineRows_spec (env : GenEnv) (args : GenArgs) (pp : Bool)
    (g : List String) (props : List (Option ℚ))
    (hgl : g.length = args.n_samples) (hpl : props.length = args.n_samples)
    (hbs : 0 < args.batch_size) (i : Nat) (hi : i < args.n_samples) :
    ∃ row, (pipelineRows env args pp g props)[i]? = some row ∧
      g[i]? = some row.smiles ∧
      (args.calc_coherence = false → row.incoherence = none) ∧
      (args.calc_coherence = true →
        (row.incoherence.isSome ↔ i ∈ survivorIdxs env.reconstruct g)) := by
  unfold pipelineRows
  set inc := incoherenceStage env args pp
    (highEntropyDims (pipelineEntropy env args))
    (lowEntropyDims (pipelineEntropy env args)) g with hinc
  have hil : inc.length = args.n_samples :=
    incoherenceStage_length env args pp _ _ g hgl
  have ha : i < g.length := by rw [hgl]; exact hi
  have hb : i < props.length := by rw [hpl]; exact hi
  have hcc : i < inc.length := by rw [hil]; exact hi
  have h : i < (zipWith3 ResultRow.mk g props inc).length := by
    rw [zipWith3_length]
    omega
  refine ⟨ResultRow.mk (g.get ⟨i, ha⟩) (props.get ⟨i, hb⟩) (inc.get ⟨i, hcc⟩),
    ?_, ?_, ?_, ?_⟩
  · rw [zipWith3_getElem? ResultRow.mk g props inc i ha hb hcc]
  · rw [List.getElem?_eq_getElem ha, List.get_eq_getElem]
  · intro hc
    show inc.get ⟨i, hcc⟩ = none
    have hall : ∀ x ∈ inc, x = none := by
      rw [hinc, incoherenceStage_false env args pp _ _ g hc]
      intro x hx
      exact List.eq_of_mem_replicate hx
    exact hall _ (List.get_mem inc i hcc)
  · intro hc
    show (inc.get ⟨i, hcc⟩).isSome ↔ _
    obtain ⟨regen, heq, hrlen⟩ := incoherenceStage_true env args pp
      (highEntropyDims (pipelineEntropy env args))
      (lowEntropyDims (pipelineEntropy env args)) g hc hbs
    have key : ∀ (j : Nat) (hj : j < inc.length),
        (inc.get ⟨j, hj⟩).isSome ↔ j ∈ survivorIdxs env.reconstruct g := by
      rw [hinc, heq]
      intro j hj
      have hjg : j < g.length := by
        have hcl := calc_coherence_length env.dist g regen
          (smiles_to_coords env.reconstruct g).2.2
        omega
      exact calc_coherence_isSome_iff env.dist g regen _ hrlen j hj hjg
    exact key i hcc

/-- C9: in the written result table, when coherence evaluation is not
requested every one of the `n_samples` rows has a null incoherence value;
when it is requested, row `i` (which carries the `i`-th originally
generated SMILES) has a present incoherence value exactly when index `i`
appears in the survivor index map of the reconstruction step. -/
theorem incoherence_null_or_survivor_aligned
    (env : GenEnv) (args : GenArgs) (di : DatasetInfo) (nb : List Nat)
    (pp : Bool) (gpath : String) (g : List String)
    (props : List (Option ℚ)) (z : List Latent)
    (hnb : di.atomic_nb = some nb)
    (hg : pipelineSample env args pp = some (g, props, z))
    (hbs : 0 < args.batch_size) :
    ∀ t ∈ csvWrites (runPipeline env args pp di gpath).1,
      t.2.2.length = args.n_samples ∧
      ∀ i < args.n_samples, ∃ row, t.2.2[i]? = some row ∧
        g[i]? = some row.smiles ∧
        (args.calc_coherence = false → row.incoherence = none) ∧
        (args.calc_coherence = true →
          (row.incoherence.isSome ↔ i ∈ survivorIdxs env.reconstruct g)) := by
  obtain ⟨hw, -⟩ := runPipeline_writes env args pp di nb gpath g props z hnb hg
  obtain ⟨hgl, hpl, -⟩ := pipelineSample_lengths env args pp g props z hg
  intro t ht
  rw [hw] at ht
  simp only [List.mem_singleton] at ht
  subst ht
  refine ⟨pipelineRows_length env args pp g props hgl hpl, ?_⟩
  intro i hi
  exact pipelineRows_spec env args pp g props hgl hpl hbs i hi

/-- C9 witness: a concrete run with coherence evaluation requested, two
generated molecules and an always-succeeding reconstructor: the written
table has the two requested rows, and row 0 (a survivor) carries a
present incoherence value. -/
theorem incoherence_null_or_survivor_aligned_witness :
    ([ResultRow.mk "C" (some 1) (some 0), ResultRow.mk "C" (some 1) (some 0)] :
        List ResultRow).length = argsC.n_samples ∧
    ∃ row, ([ResultRow.mk "C" (some 1) (some 0),
        ResultRow.mk "C" (some 1) (some 0)] : List ResultRow)[0]? = some row ∧
      ["C", "C"][0]? = some row.smiles ∧
      (argsC.calc_coherence = false → row.incoherence = none) ∧
      (argsC.calc_coherence = true →
        (row.incoherence.isSome ↔ 0 ∈ survivorIdxs envW.reconstruct ["C", "C"])) :=
  ⟨(incoherence_null_or_survivor_aligned envW argsC geom_with_h
      [1, 5, 6, 7, 8, 9, 13, 14, 15, 16, 17, 33, 35, 53, 80, 83] true
      (gen_path argsC) ["C", "C"] [some 1, some 1] [[0], [0]] rfl rfl (by decide)
      (gen_path argsC, resultHeader,
        [ResultRow.mk "C" (some 1) (some 0), ResultRow.mk "C" (some 1) (some 0)])
      (List.mem_singleton.mpr rfl)).1,
   (incoherence_null_or_survivor_aligned envW argsC geom_with_h
      [1, 5, 6, 7, 8, 9, 13, 14, 15, 16, 17, 33, 35, 53, 80, 83] true
      (gen_path argsC) ["C", "C"] [some 1, some 1] [[0], [0]] rfl rfl (by decide)
      (gen_path argsC, resultHeader,
        [ResultRow.mk "C" (some 1) (some 0), ResultRow.mk "C" (some 1) (some 0)])
      (List.mem_singleton.mpr rfl)).2 0 (by decide)⟩

end VagrantSampling
